import Mathlib

/-!
Verification of the Socket lifecycle wrapper in src/socket.rs.

The Rust code wraps the raw OS syscalls socket/bind/listen/accept/close
behind a handle with an explicit state machine.  We embed it shallowly:

* OS syscall results are explicit oracle parameters (the OS is an
  external collaborator); `-1` is the failure sentinel, exactly as in
  the FFI declarations of the source.
* `Result<T, String>` becomes `Except String T`; each method that takes
  `&mut self` returns the updated handle paired with the result, and
  `accept`, which takes `&self`, returns only `Except String Socket`.
* Host endianness is a parameter, so that the network-byte-order claims
  can be stated for both little- and big-endian hosts.
-/

/-- Host endianness.  The source calls `to_be` on port and address so the
record is network byte order on either host. -/
inductive Endian
  | little
  | big
deriving DecidableEq

/-- Embedding of `u16::to_be`: identity on a big-endian host, byte swap on a
little-endian host. -/
def to_be16 (e : Endian) (x : Nat) : Nat :=
  match e with
  | Endian.big => x
  | Endian.little => x % 256 * 256 + x / 256 % 256

/-- Embedding of `u32::to_be`: identity on a big-endian host, byte swap on a
little-endian host. -/
def to_be32 (e : Endian) (x : Nat) : Nat :=
  match e with
  | Endian.big => x
  | Endian.little =>
      x % 256 * 2 ^ 24 + x / 2 ^ 8 % 256 * 2 ^ 16 + x / 2 ^ 16 % 256 * 2 ^ 8 + x / 2 ^ 24 % 256

/-- The byte sequence laid down in memory when the 16-bit value `v` is stored
on a host of endianness `e`. -/
def memBytes16 (e : Endian) (v : Nat) : List Nat :=
  match e with
  | Endian.little => [v % 256, v / 256 % 256]
  | Endian.big => [v / 256 % 256, v % 256]

/-- The byte sequence laid down in memory when the 32-bit value `v` is stored
on a host of endianness `e`. -/
def memBytes32 (e : Endian) (v : Nat) : List Nat :=
  match e with
  | Endian.little => [v % 256, v / 2 ^ 8 % 256, v / 2 ^ 16 % 256, v / 2 ^ 24 % 256]
  | Endian.big => [v / 2 ^ 24 % 256, v / 2 ^ 16 % 256, v / 2 ^ 8 % 256, v % 256]

/-- `libc::AF_INET`. -/
def AF_INET : Nat := 2

/-- `mem::size_of::<sockaddr_in>()` on the target platform of the source. -/
def sizeof_sockaddr_in : Nat := 16

/-- Embedding of `libc::sockaddr_in` as built in `Socket::bind`; the numeric
fields hold the values the code stores (already passed through `to_be`). -/
structure SockaddrIn where
  sin_len : Nat
  sin_family : Nat
  sin_port : Nat
  sin_addr : Nat
  sin_zero : List Nat
deriving DecidableEq

/-- The address record construction in `Socket::bind` (lines 97 to 105 of
src/socket.rs): length, family, port in network order, address in network
order, zero padding. -/
def mkSockaddrIn (e : Endian) (port : Nat) (addr : Nat) : SockaddrIn :=
  { sin_len := sizeof_sockaddr_in
    sin_family := AF_INET
    sin_port := to_be16 e port
    sin_addr := to_be32 e addr
    sin_zero := List.replicate 8 0 }

/-- ASCII decimal digit test, as used by the Rust IPv4 literal parser. -/
def isDigitC (c : Char) : Bool := 48 ≤ c.toNat && c.toNat ≤ 57

/-- Numeric value of an ASCII digit. -/
def digitVal (c : Char) : Nat := c.toNat - 48

/-- One octet of a dotted-decimal IPv4 literal, following the behaviour of
`str::parse::<Ipv4Addr>` in the Rust standard library: one to three decimal
digits, no leading zero (except the single digit 0), value at most 255. -/
def parseOctet : List Char → Option Nat
  | [c] => if isDigitC c then some (digitVal c) else none
  | [c1, c2] =>
      if isDigitC c1 && isDigitC c2 && c1 != '0' then
        some (digitVal c1 * 10 + digitVal c2)
      else none
  | [c1, c2, c3] =>
      if isDigitC c1 && isDigitC c2 && isDigitC c3 && c1 != '0' then
        if digitVal c1 * 100 + digitVal c2 * 10 + digitVal c3 ≤ 255 then
          some (digitVal c1 * 100 + digitVal c2 * 10 + digitVal c3)
        else none
      else none
  | _ => none

/-- Split a character list at every dot, keeping empty groups, so that the
group count distinguishes too few or too many dots. -/
def splitDots : List Char → List (List Char)
  | [] => [[]]
  | c :: rest =>
      let r := splitDots rest
      if c = '.' then [] :: r
      else
        match r with
        | [] => [[c]]
        | g :: gs => (c :: g) :: gs

/-- Embedding of `ip.parse::<Ipv4Addr>()` in `Socket::bind`: a valid
dotted-decimal IPv4 literal is exactly four octets separated by dots. -/
def parseIpv4 (s : String) : Option (Nat × Nat × Nat × Nat) :=
  match splitDots s.toList with
  | [a, b, c, d] =>
      match parseOctet a, parseOctet b, parseOctet c, parseOctet d with
      | some x, some y, some z, some w => some (x, y, z, w)
      | _, _, _, _ => none
  | _ => none

/-- `u32::from(ip)` for a parsed IPv4 address: big-endian composition of the
four octets. -/
def ipv4ToU32 (x y z w : Nat) : Nat := x * 2 ^ 24 + y * 2 ^ 16 + z * 2 ^ 8 + w

/-- The `SocketState` enum of src/socket.rs. -/
inductive SocketState
  | Created
  | Bound
  | Listening
  | Connected
  | Closed
deriving DecidableEq

/-- The `Socket` struct of src/socket.rs: a raw file descriptor and the
lifecycle state. -/
structure Socket where
  fd : Int
  state : SocketState
deriving DecidableEq

/-- `Socket::new`: the OS result of `socket(AF_INET, SOCK_STREAM, 0)` is the
oracle parameter; `-1` is the failure sentinel. -/
def Socket.new (osSocket : Int) : Except String Socket :=
  if osSocket = -1 then Except.error "Failed to create a socket"
  else Except.ok { fd := osSocket, state := SocketState.Created }

/-- `Socket::bind`: state guard, IPv4 parse, address record construction,
OS bind call (an oracle seeing the record built), state update on success. -/
def Socket.bind (s : Socket) (e : Endian) (ip : String) (port : Nat)
    (osBind : SockaddrIn → Int) : Socket × Except String Unit :=
  if s.state ≠ SocketState.Created then
    (s, Except.error "Socket already bound our connected")
  else
    match parseIpv4 ip with
    | none => (s, Except.error "Ivalid IP address")
    | some (x, y, z, w) =>
        let addr := mkSockaddrIn e port (ipv4ToU32 x y z w)
        if osBind addr = -1 then (s, Except.error "Failed to bind socket")
        else ({ s with state := SocketState.Bound }, Except.ok ())

/-- `Socket::listen`: state guard, OS listen call (an oracle seeing the
backlog passed), state update on success. -/
def Socket.listen (s : Socket) (backlog : Int) (osListen : Int → Int) :
    Socket × Except String Unit :=
  if s.state ≠ SocketState.Bound then
    (s, Except.error "Socket must be bound before listening")
  else if osListen backlog = -1 then (s, Except.error "Failed to listen on socket")
  else ({ s with state := SocketState.Listening }, Except.ok ())

/-- `Socket::accept`: takes `&self`, so the caller is not returned updated; on
success a brand-new handle in state `Connected` owns the OS-returned
descriptor. -/
def Socket.accept (s : Socket) (osAccept : Int) : Except String Socket :=
  if s.state ≠ SocketState.Listening then Except.error "Socket is not listening"
  else if osAccept = -1 then Except.error "Failed to accept connection"
  else Except.ok { fd := osAccept, state := SocketState.Connected }

/-- `Drop for Socket`: the OS close call is issued only when the state is not
already `Closed`; the second component lists the descriptors actually passed
to `close`.  The drop glue has no error channel at all (`fn drop` returns
unit and the result of `close` is discarded). -/
def Socket.drop (s : Socket) : Socket × List Int :=
  if s.state ≠ SocketState.Closed then
    ({ s with state := SocketState.Closed }, [s.fd])
  else (s, [])

/-- Iterated release triggers on the same handle, accumulating every
descriptor that reaches the OS close call. -/
def Socket.dropN : Nat → Socket → Socket × List Int
  | 0, s => (s, [])
  | n + 1, s =>
      let r := Socket.drop s
      let r2 := Socket.dropN n r.1
      (r2.1, r.2 ++ r2.2)

/-- One operation applied to an existing handle. -/
inductive Op
  | bindOp (e : Endian) (ip : String) (port : Nat) (os : SockaddrIn → Int)
  | listenOp (backlog : Int) (os : Int → Int)
  | acceptOp (os : Int)
  | dropOp

/-- The handle after one operation.  `accept` takes `&self` in the source, so
it leaves the calling handle untouched. -/
def applyOp (s : Socket) (op : Op) : Socket :=
  match op with
  | Op.bindOp e ip port os => (s.bind e ip port os).1
  | Op.listenOp b os => (s.listen b os).1
  | Op.acceptOp _ => s
  | Op.dropOp => s.drop.1

/-- Position of a state along the forward lifecycle order. -/
def rank : SocketState → Nat
  | SocketState.Created => 0
  | SocketState.Bound => 1
  | SocketState.Listening => 2
  | SocketState.Connected => 3
  | SocketState.Closed => 4

theorem rank_le_four (st : SocketState) : rank st ≤ 4 := by
  cases st <;> simp [rank]

theorem drop_of_closed (s : Socket) (h : s.state = SocketState.Closed) :
    Socket.drop s = (s, []) := by
  simp [Socket.drop, h]

theorem drop_fst_state (s : Socket) : (Socket.drop s).1.state = SocketState.Closed := by
  by_cases h : s.state = SocketState.Closed <;> simp [Socket.drop, h]

theorem dropN_of_closed (n : Nat) (s : Socket) (h : s.state = SocketState.Closed) :
    Socket.dropN n s = (s, []) := by
  induction n with
  | zero => simp [Socket.dropN]
  | succ n ih => simp [Socket.dropN, drop_of_closed s h, ih]

theorem applyOp_step (s : Socket) (op : Op) :
    (applyOp s op).state = s.state
    ∨ (s.state = SocketState.Created ∧ (applyOp s op).state = SocketState.Bound)
    ∨ (s.state = SocketState.Bound ∧ (applyOp s op).state = SocketState.Listening)
    ∨ (applyOp s op).state = SocketState.Closed := by
  cases op with
  | bindOp e ip port os =>
      by_cases h : s.state = SocketState.Created
      · rcases hp : parseIpv4 ip with _ | ⟨x, y, z, w⟩
        · left; simp [applyOp, Socket.bind, h, hp]
        · by_cases hos : os (mkSockaddrIn e port (ipv4ToU32 x y z w)) = -1
          · left; simp [applyOp, Socket.bind, h, hp, hos]
          · right; left
            exact ⟨h, by simp [applyOp, Socket.bind, h, hp, hos]⟩
      · left; simp [applyOp, Socket.bind, h]
  | listenOp b os =>
      by_cases h : s.state = SocketState.Bound
      · by_cases hos : os b = -1
        · left; simp [applyOp, Socket.listen, h, hos]
        · right; right; left
          exact ⟨h, by simp [applyOp, Socket.listen, h, hos]⟩
      · left; simp [applyOp, Socket.listen, h]
  | acceptOp os => left; rfl
  | dropOp => right; right; right; exact drop_fst_state s

theorem rank_le_applyOp (s : Socket) (op : Op) :
    rank s.state ≤ rank (applyOp s op).state := by
  rcases applyOp_step s op with h | ⟨h1, h2⟩ | ⟨h1, h2⟩ | h
  · rw [h]
  · rw [h1, h2]; simp [rank]
  · rw [h1, h2]; simp [rank]
  · rw [h]; exact rank_le_four s.state

theorem rank_le_foldl (s : Socket) (ops : List Op) :
    rank s.state ≤ rank (ops.foldl applyOp s).state := by
  induction ops generalizing s with
  | nil => exact Nat.le_refl _
  | cons op ops ih =>
      exact Nat.le_trans (rank_le_applyOp s op) (ih (applyOp s op))

/-- Claim C1: along any sequence of operations, a handle state only advances
forward along Created, Bound, Listening (never backward), accept assigns
Connected only to the handle it returns, and the terminal Closed state is
reachable from every state by a drop. -/
theorem lifecycle_monotone (s : Socket) (ops : List Op) :
    rank s.state ≤ rank (ops.foldl applyOp s).state
    ∧ (∀ op : Op,
        (applyOp s op).state = s.state
        ∨ (s.state = SocketState.Created ∧ (applyOp s op).state = SocketState.Bound)
        ∨ (s.state = SocketState.Bound ∧ (applyOp s op).state = SocketState.Listening)
        ∨ (applyOp s op).state = SocketState.Closed)
    ∧ (applyOp s Op.dropOp).state = SocketState.Closed
    ∧ (∀ os k, Socket.accept s os = Except.ok k → k.state = SocketState.Connected) := by
  refine ⟨rank_le_foldl s ops, applyOp_step s, drop_fst_state s, ?_⟩
  intro os k hk
  by_cases h1 : s.state = SocketState.Listening
  · by_cases h2 : os = -1
    · simp [Socket.accept, h1, h2] at hk
    · simp [Socket.accept, h1, h2] at hk
      rw [← hk]
  · simp [Socket.accept, h1] at hk

/-- Witness for C1 at a concrete listening handle: accept at descriptor 7
yields a Connected handle. -/
theorem lifecycle_monotone_witness :
    ({ fd := 7, state := SocketState.Connected } : Socket).state = SocketState.Connected :=
  (lifecycle_monotone { fd := 3, state := SocketState.Listening } []).2.2.2 7
    { fd := 7, state := SocketState.Connected } rfl

/-- Claim C2: no matter how many release triggers occur, the descriptors that
reach the OS close call are at most one occurrence of the handle descriptor;
releasing leaves the state Closed, and a second release is a no-op issuing
no close call (and the drop glue has no error channel at all). -/
theorem release_idempotent (s : Socket) (n : Nat) :
    ((Socket.dropN n s).2 = [] ∨ (Socket.dropN n s).2 = [s.fd])
    ∧ (Socket.drop s).1.state = SocketState.Closed
    ∧ Socket.drop (Socket.drop s).1 = ((Socket.drop s).1, []) := by
  refine ⟨?_, drop_fst_state s, drop_of_closed _ (drop_fst_state s)⟩
  cases n with
  | zero => left; rfl
  | succ n =>
      have hrest := dropN_of_closed n (Socket.drop s).1 (drop_fst_state s)
      by_cases h : s.state = SocketState.Closed
      · left; simp [Socket.dropN, drop_of_closed s h, dropN_of_closed n s h]
      · right
        simp [Socket.dropN, hrest]
        simp [Socket.drop, h]

/-- Claim C3: bind succeeds only in state Created; any other state yields the
invalid-state error with the handle unchanged; an OS bind failure yields the
bind error with the state still Created; an OS success transitions to Bound;
and every failure path leaves the handle exactly as it was. -/
theorem bind_spec (s : Socket) (e : Endian) (ip : String) (port : Nat)
    (os : SockaddrIn → Int) :
    (s.state ≠ SocketState.Created →
      s.bind e ip port os = (s, Except.error "Socket already bound our connected"))
    ∧ (∀ x y z w, s.state = SocketState.Created →
        parseIpv4 ip = some (x, y, z, w) →
        os (mkSockaddrIn e port (ipv4ToU32 x y z w)) = -1 →
        s.bind e ip port os = (s, Except.error "Failed to bind socket"))
    ∧ (∀ x y z w, s.state = SocketState.Created →
        parseIpv4 ip = some (x, y, z, w) →
        os (mkSockaddrIn e port (ipv4ToU32 x y z w)) ≠ -1 →
        s.bind e ip port os
          = ({ fd := s.fd, state := SocketState.Bound }, Except.ok ()))
    ∧ (∀ msg, (s.bind e ip port os).2 = Except.error msg →
        (s.bind e ip port os).1 = s) := by
  refine ⟨?_, ?_, ?_, ?_⟩
  · intro h; simp [Socket.bind, h]
  · intro x y z w hs hip hos; simp [Socket.bind, hs, hip, hos]
  · intro x y z w hs hip hos; simp [Socket.bind, hs, hip, hos]
  · intro msg herr
    by_cases hs : s.state = SocketState.Created
    · rcases hip : parseIpv4 ip with _ | ⟨x, y, z, w⟩
      · simp [Socket.bind, hs, hip]
      · by_cases hos : os (mkSockaddrIn e port (ipv4ToU32 x y z w)) = -1
        · simp [Socket.bind, hs, hip, hos]
        · simp [Socket.bind, hs, hip, hos] at herr
    · simp [Socket.bind, hs]

/-- Witness for C3 at a concrete handle: a successful OS bind on a freshly
created socket at 127.0.0.1 port 80 moves it to Bound. -/
theorem bind_spec_witness :
    Socket.bind { fd := 3, state := SocketState.Created } Endian.little
        "127.0.0.1" 80 (fun _ => 0)
      = ({ fd := 3, state := SocketState.Bound }, Except.ok ()) :=
  (bind_spec { fd := 3, state := SocketState.Created } Endian.little
      "127.0.0.1" 80 (fun _ => 0)).2.2.1 127 0 0 1 rfl (by decide) (by decide)

/-- Claim C4: accept fails with the invalid-state error outside Listening,
never changes the calling handle, fails with the accept error when the OS
reports failure, and on success returns a brand-new Connected handle owning
the OS-returned descriptor. -/
theorem accept_spec (s : Socket) (os : Int) :
    (s.state ≠ SocketState.Listening →
      s.accept os = Except.error "Socket is not listening")
    ∧ applyOp s (Op.acceptOp os) = s
    ∧ (s.state = SocketState.Listening → os = -1 →
      s.accept os = Except.error "Failed to accept connection")
    ∧ (s.state = SocketState.Listening → os ≠ -1 →
      s.accept os = Except.ok { fd := os, state := SocketState.Connected }) := by
  refine ⟨?_, rfl, ?_, ?_⟩
  · intro h; simp [Socket.accept, h]
  · intro hs hos; simp [Socket.accept, hs, hos]
  · intro hs hos; simp [Socket.accept, hs, hos]

/-- Witness for C4 at a concrete handle: accept on a Created handle fails
with the invalid-state error. -/
theorem accept_spec_witness :
    Socket.accept { fd := 3, state := SocketState.Created } 5
      = Except.error "Socket is not listening" :=
  (accept_spec { fd := 3, state := SocketState.Created } 5).1 (by decide)

/-- Claim C5: listen succeeds only in state Bound; in any other state (in
particular Created, before any successful bind) it fails with the
invalid-state error and leaves the handle unchanged; an OS failure yields
the listen error with the state unchanged; an OS success transitions the
state to Listening. -/
theorem listen_spec (s : Socket) (b : Int) (os : Int → Int) :
    (s.state ≠ SocketState.Bound →
      s.listen b os = (s, Except.error "Socket must be bound before listening"))
    ∧ (s.state = SocketState.Bound → os b = -1 →
      s.listen b os = (s, Except.error "Failed to listen on socket"))
    ∧ (s.state = SocketState.Bound → os b ≠ -1 →
      s.listen b os
        = ({ fd := s.fd, state := SocketState.Listening }, Except.ok ())) := by
  refine ⟨?_, ?_, ?_⟩
  · intro h; simp [Socket.listen, h]
  · intro hs hos; simp [Socket.listen, hs, hos]
  · intro hs hos; simp [Socket.listen, hs, hos]

/-- Witness for C5 at a concrete handle: listen on a Created handle fails
with the invalid-state error and leaves the handle in Created. -/
theorem listen_spec_witness :
    Socket.listen { fd := 3, state := SocketState.Created } 10 (fun _ => 0)
      = ({ fd := 3, state := SocketState.Created },
         Except.error "Socket must be bound before listening") :=
  (listen_spec { fd := 3, state := SocketState.Created } 10 (fun _ => 0)).1 (by decide)

/-- Claim C6: on a handle in state Created, bind with a string that is not a
valid dotted-decimal IPv4 literal fails with the address-parse error and
returns the handle unchanged, still in Created. -/
theorem bind_parse_error (s : Socket) (e : Endian) (ip : String) (port : Nat)
    (os : SockaddrIn → Int) (hs : s.state = SocketState.Created)
    (hip : parseIpv4 ip = none) :
    s.bind e ip port os = (s, Except.error "Ivalid IP address") := by
  simp [Socket.bind, hs, hip]

/-- Witness for C6 at the malformed address used by the repository test
suite. -/
theorem bind_parse_error_witness :
    Socket.bind { fd := 3, state := SocketState.Created } Endian.little
        "-dvddfvfdvdvd0.0.0.0" 0 (fun _ => 0)
      = ({ fd := 3, state := SocketState.Created },
         Except.error "Ivalid IP address") :=
  bind_parse_error { fd := 3, state := SocketState.Created } Endian.little
    "-dvddfvfdvdvd0.0.0.0" 0 (fun _ => 0) rfl (by decide)

theorem digitVal_le (c : Char) (h : isDigitC c = true) : digitVal c ≤ 9 := by
  simp only [isDigitC, Bool.and_eq_true, decide_eq_true_eq] at h
  simp only [digitVal]
  omega

theorem parseOctet_lt (l : List Char) (v : Nat) (h : parseOctet l = some v) :
    v < 256 := by
  match l with
  | [] => simp [parseOctet] at h
  | [c] =>
      simp only [parseOctet] at h
      split at h
      · rename_i hc
        have := digitVal_le c hc
        simp only [Option.some.injEq] at h
        omega
      · simp at h
  | [c1, c2] =>
      simp only [parseOctet] at h
      split at h
      · rename_i hc
        simp only [Bool.and_eq_true] at hc
        have h1 := digitVal_le c1 hc.1.1
        have h2 := digitVal_le c2 hc.1.2
        simp only [Option.some.injEq] at h
        omega
      · simp at h
  | [c1, c2, c3] =>
      simp only [parseOctet] at h
      split at h
      · split at h
        · rename_i hle
          simp only [Option.some.injEq] at h
          omega
        · simp at h
      · simp at h
  | c1 :: c2 :: c3 :: c4 :: rest => simp [parseOctet] at h

theorem parseIpv4_lt (s : String) (x y z w : Nat)
    (h : parseIpv4 s = some (x, y, z, w)) :
    x < 256 ∧ y < 256 ∧ z < 256 ∧ w < 256 := by
  unfold parseIpv4 at h
  split at h
  · split at h
    · rename_i ha hb hc hd
      simp only [Option.some.injEq, Prod.mk.injEq] at h
      obtain ⟨hx, hy, hz, hw⟩ := h
      subst hx; subst hy; subst hz; subst hw
      exact ⟨parseOctet_lt _ _ ha, parseOctet_lt _ _ hb,
             parseOctet_lt _ _ hc, parseOctet_lt _ _ hd⟩
    · simp at h
  · simp at h

/-- Claim C7: for every address accepted by the IPv4 parser and every 16-bit
port, on either host endianness the record built by bind stores the port as
its big-endian bytes, the address as its big-endian bytes (exactly the four
dotted octets in order), and all-zero padding. -/
theorem sockaddr_network_order (e : Endian) (ip : String) (port x y z w : Nat)
    (hp : port < 65536) (hip : parseIpv4 ip = some (x, y, z, w)) :
    memBytes16 e (mkSockaddrIn e port (ipv4ToU32 x y z w)).sin_port
      = [port / 256, port % 256]
    ∧ memBytes32 e (mkSockaddrIn e port (ipv4ToU32 x y z w)).sin_addr
      = [x, y, z, w]
    ∧ (mkSockaddrIn e port (ipv4ToU32 x y z w)).sin_zero = List.replicate 8 0 := by
  obtain ⟨hx, hy, hz, hw⟩ := parseIpv4_lt ip x y z w hip
  refine ⟨?_, ?_, rfl⟩
  · cases e with
    | big =>
        simp only [mkSockaddrIn, to_be16, memBytes16, List.cons.injEq, and_true]
        omega
    | little =>
        have hv : to_be16 Endian.little port = port % 256 * 256 + port / 256 := by
          simp only [to_be16]
          omega
        simp only [mkSockaddrIn, hv, memBytes16, List.cons.injEq, and_true]
        have h1 : (port % 256 * 256 + port / 256) / 256 = port % 256 := by omega
        rw [h1]
        constructor
        · omega
        · omega
  · cases e with
    | big =>
        simp only [mkSockaddrIn, to_be32, memBytes32, ipv4ToU32,
          List.cons.injEq, and_true]
        refine ⟨?_, ?_, ?_, ?_⟩ <;> omega
    | little =>
        have hv : to_be32 Endian.little (ipv4ToU32 x y z w)
            = w * 2 ^ 24 + z * 2 ^ 16 + y * 2 ^ 8 + x := by
          simp only [to_be32, ipv4ToU32]
          omega
        simp only [mkSockaddrIn, hv, memBytes32, List.cons.injEq, and_true]
        refine ⟨?_, ?_, ?_, ?_⟩ <;> omega

/-- Witness for C7: address 10.0.0.1 and port 8080 on a little-endian host. -/
theorem sockaddr_network_order_witness :
    memBytes16 Endian.little
        (mkSockaddrIn Endian.little 8080 (ipv4ToU32 10 0 0 1)).sin_port
      = [31, 144]
    ∧ memBytes32 Endian.little
        (mkSockaddrIn Endian.little 8080 (ipv4ToU32 10 0 0 1)).sin_addr
      = [10, 0, 0, 1]
    ∧ (mkSockaddrIn Endian.little 8080 (ipv4ToU32 10 0 0 1)).sin_zero
      = List.replicate 8 0 :=
  sockaddr_network_order Endian.little "10.0.0.1" 8080 10 0 0 1
    (by decide) (by decide)

/-- Claim C8: a successful construction returns a Created handle whose
descriptor is the fresh one the OS handed out (hence distinct from every
live descriptor, the OS contract for a successful socket call), and a
successful accept returns a new handle whose descriptor differs from the
listening handle descriptor, the listening handle itself being untouched. -/
theorem descriptor_unique (live : List Int) (s k a : Socket) (osSock osAcc : Int)
    (hnew : Socket.new osSock = Except.ok k)
    (hfresh : osSock ∉ live)
    (hacc : s.accept osAcc = Except.ok a)
    (hafresh : osAcc ≠ s.fd) :
    k.state = SocketState.Created ∧ k.fd ∉ live
    ∧ a.fd ≠ s.fd ∧ applyOp s (Op.acceptOp osAcc) = s := by
  have hk : k = { fd := osSock, state := SocketState.Created } := by
    by_cases h : osSock = -1
    · simp [Socket.new, h] at hnew
    · simp [Socket.new, h] at hnew
      exact hnew.symm
  have ha : a = { fd := osAcc, state := SocketState.Connected } := by
    by_cases h1 : s.state = SocketState.Listening
    · by_cases h2 : osAcc = -1
      · simp [Socket.accept, h1, h2] at hacc
      · simp [Socket.accept, h1, h2] at hacc
        exact hacc.symm
    · simp [Socket.accept, h1] at hacc
  subst hk; subst ha
  exact ⟨rfl, hfresh, hafresh, rfl⟩

/-- Witness for C8: the OS hands out descriptor 4 for the socket call and
descriptor 5 for the accept call on a listening handle with descriptor 3. -/
theorem descriptor_unique_witness :
    ({ fd := 4, state := SocketState.Created } : Socket).state = SocketState.Created
    ∧ ({ fd := 4, state := SocketState.Created } : Socket).fd ∉ ([3] : List Int)
    ∧ ({ fd := 5, state := SocketState.Connected } : Socket).fd
        ≠ ({ fd := 3, state := SocketState.Listening } : Socket).fd
    ∧ applyOp { fd := 3, state := SocketState.Listening } (Op.acceptOp 5)
        = { fd := 3, state := SocketState.Listening } :=
  descriptor_unique [3] { fd := 3, state := SocketState.Listening }
    { fd := 4, state := SocketState.Created }
    { fd := 5, state := SocketState.Connected } 4 5
    rfl (by decide) rfl (by decide)

/-- Claim C9: every operation is a total function into a result value whose
outcomes are exhaustively the documented success and the documented typed
errors; no input reaches an unreachable or crashing branch, and the release
path has no failure channel at all. -/
theorem no_fatal_failure (s : Socket) (e : Endian) (ip : String) (port : Nat)
    (osB : SockaddrIn → Int) (b : Int) (osL : Int → Int) (osA osS : Int) :
    (Socket.new osS = Except.error "Failed to create a socket"
      ∨ Socket.new osS = Except.ok { fd := osS, state := SocketState.Created })
    ∧ ((s.bind e ip port osB).2 = Except.ok ()
      ∨ (s.bind e ip port osB).2 = Except.error "Socket already bound our connected"
      ∨ (s.bind e ip port osB).2 = Except.error "Ivalid IP address"
      ∨ (s.bind e ip port osB).2 = Except.error "Failed to bind socket")
    ∧ ((s.listen b osL).2 = Except.ok ()
      ∨ (s.listen b osL).2 = Except.error "Socket must be bound before listening"
      ∨ (s.listen b osL).2 = Except.error "Failed to listen on socket")
    ∧ (s.accept osA = Except.ok { fd := osA, state := SocketState.Connected }
      ∨ s.accept osA = Except.error "Socket is not listening"
      ∨ s.accept osA = Except.error "Failed to accept connection")
    ∧ (s.drop.2 = [] ∨ s.drop.2 = [s.fd]) := by
  refine ⟨?_, ?_, ?_, ?_, ?_⟩
  · by_cases h : osS = -1
    · left; simp [Socket.new, h]
    · right; simp [Socket.new, h]
  · by_cases hs : s.state = SocketState.Created
    · rcases hip : parseIpv4 ip with _ | ⟨x, y, z, w⟩
      · right; right; left; simp [Socket.bind, hs, hip]
      · by_cases hos : osB (mkSockaddrIn e port (ipv4ToU32 x y z w)) = -1
        · right; right; right; simp [Socket.bind, hs, hip, hos]
        · left; simp [Socket.bind, hs, hip, hos]
    · right; left; simp [Socket.bind, hs]
  · by_cases hs : s.state = SocketState.Bound
    · by_cases hos : osL b = -1
      · right; right; simp [Socket.listen, hs, hos]
      · left; simp [Socket.listen, hs, hos]
    · right; left; simp [Socket.listen, hs]
  · by_cases hs : s.state = SocketState.Listening
    · by_cases hos : osA = -1
      · right; right; simp [Socket.accept, hs, hos]
      · left; simp [Socket.accept, hs, hos]
    · right; left; simp [Socket.accept, hs]
  · by_cases h : s.state = SocketState.Closed
    · left; simp [Socket.drop, h]
    · right; simp [Socket.drop, h]

/-- Claim C10: a handle is only ever produced with the OS-returned
descriptor after the sentinel check, so no handle produced by the public
interface carries descriptor -1. -/
theorem fd_not_sentinel (s k j : Socket) (osS osA : Int)
    (hnew : Socket.new osS = Except.ok k)
    (hacc : s.accept osA = Except.ok j) :
    k.fd ≠ -1 ∧ j.fd ≠ -1 := by
  constructor
  · by_cases h : osS = -1
    · simp [Socket.new, h] at hnew
    · simp [Socket.new, h] at hnew
      rw [← hnew]
      exact h
  · by_cases h1 : s.state = SocketState.Listening
    · by_cases h2 : osA = -1
      · simp [Socket.accept, h1, h2] at hacc
      · simp [Socket.accept, h1, h2] at hacc
        rw [← hacc]
        exact h2
    · simp [Socket.accept, h1] at hacc

/-- Witness for C10: the OS hands out descriptors 4 and 5. -/
theorem fd_not_sentinel_witness :
    ({ fd := 4, state := SocketState.Created } : Socket).fd ≠ -1
    ∧ ({ fd := 5, state := SocketState.Connected } : Socket).fd ≠ -1 :=
  fd_not_sentinel { fd := 3, state := SocketState.Listening }
    { fd := 4, state := SocketState.Created }
    { fd := 5, state := SocketState.Connected } 4 5 rfl rfl
